import Mathlib

/-!
Shallow embedding of the scroll-synchronized animation and infinite-loop
carousel subsystem of the `cheatham-arboriculture` single-page site.

The embedded code comes from two source files:

* `src/src/components/AutoScrollGallery.jsx` — the continuously scrolling
  "InfiniteStrip" gallery: prop normalization (`safeImages`), the loop
  decision (`hasLoop`), the duplicated track, the per-frame scroll ticker
  with its seamless half-width wrap, the resize renormalization, the
  visibility (IntersectionObserver) pause callback, hover pause, and the
  arrow-button manual scroll.
* `src/src/App.jsx` — the `useParallaxRelative` hook (scroll-driven
  background transform), the section IntersectionObserver that maintains
  the active-nav id, and the `GalleryCarousel` clone-loop carousel
  (clone-padded `slides`, autoplay interval, `transitionend` wrap snap,
  animation re-enable frame, arrow/dot navigation, real-index display).

Numbers that are JS floats in the source are modelled as rationals (`ℚ`);
DOM state mutated by effects is modelled as explicit state records with
step functions, and event streams (frames, timer ticks, observer
callbacks) as lists of events folded over the state.  The JS remainder
operator `%` truncates toward zero; it is modelled by `jsMod` below.
-/

namespace Arbor

/-! ## JS arithmetic helpers -/

/-- The JS remainder `a % b` on numbers: `a - b * trunc (a / b)`, where
truncation rounds toward zero (floor for a nonnegative quotient, ceiling
for a negative one). -/
def jsMod (a b : ℚ) : ℚ :=
  if 0 ≤ a / b then a - b * (⌊a / b⌋ : ℚ) else a - b * (⌈a / b⌉ : ℚ)

/-- The JS remainder `a % b` on integers (`Int.tmod` truncates toward
zero, matching JS `%` on integral values). -/
def jsModInt (a b : ℤ) : ℤ := Int.tmod a b

theorem jsMod_eq_fract (a b : ℚ) (ha : 0 ≤ a) (hb : 0 < b) :
    jsMod a b = b * Int.fract (a / b) := by
  have hab : 0 ≤ a / b := div_nonneg ha hb.le
  rw [jsMod, if_pos hab, Int.fract]
  field_simp

theorem jsMod_nonneg (a b : ℚ) (ha : 0 ≤ a) (hb : 0 < b) : 0 ≤ jsMod a b := by
  rw [jsMod_eq_fract a b ha hb]
  exact mul_nonneg hb.le (Int.fract_nonneg _)

theorem jsMod_lt (a b : ℚ) (ha : 0 ≤ a) (hb : 0 < b) : jsMod a b < b := by
  rw [jsMod_eq_fract a b ha hb]
  have h := mul_lt_mul_of_pos_left (Int.fract_lt_one (a / b)) hb
  rwa [mul_one] at h

/-! ## AutoScrollGallery (InfiniteStrip): prop normalization

From `src/src/components/AutoScrollGallery.jsx`:

```js
const safeImages = useMemo(() => {
  const list = Array.isArray(images) ? images : [];
  return list
    .filter(Boolean)
    .map((img) => (typeof img === "string" ? { src: img } : img));
}, [images]);

const hasLoop = safeImages.length >= 2;
const track = useMemo(
  () => (hasLoop ? [...safeImages, ...safeImages] : safeImages),
  [hasLoop, safeImages]
);
```
-/

/-- A normalized gallery image object `{ src, alt?, href? }`. -/
structure GalleryImage where
  src : String
  alt : Option String := none
  href : Option String := none
deriving DecidableEq

/-- One entry of the `images` array prop.  `nullish` stands for any falsy
non-string entry (`null`, `undefined`, `false`, `0`, `NaN`); a string
entry is falsy exactly when it is empty; an object entry is always
truthy. -/
inductive ImageEntry where
  | nullish
  | strE (s : String)
  | objE (img : GalleryImage)
deriving DecidableEq

/-- JS truthiness of an `images` array entry (the `filter(Boolean)`
predicate). -/
def entryTruthy : ImageEntry → Bool
  | .nullish => false
  | .strE s => !(s == "")
  | .objE _ => true

/-- The `typeof img === "string" ? { src: img } : img` normalization step. -/
def normalizeEntry : ImageEntry → GalleryImage
  | .nullish => { src := "" }
  | .strE s => { src := s }
  | .objE img => img

/-- The `images` prop value: either not an array (JS `Array.isArray`
fails) or an array of entries. -/
inductive ImagesProp where
  | notArray
  | arr (entries : List ImageEntry)

/-- `safeImages`: non-arrays become `[]`, falsy entries are dropped,
strings become `{ src }` objects. -/
def safeImages : ImagesProp → List GalleryImage
  | .notArray => []
  | .arr l => (l.filter entryTruthy).map normalizeEntry

/-- `hasLoop = safeImages.length >= 2`. -/
def hasLoop (imgs : List GalleryImage) : Bool := decide (2 ≤ imgs.length)

/-- The rendered track: the list concatenated with itself when looping,
otherwise the single-pass list. -/
def track (imgs : List GalleryImage) : List GalleryImage :=
  if hasLoop imgs then imgs ++ imgs else imgs

/-! ## AutoScrollGallery: scroll ticker and resize normalization

From the auto-scroll effect of `AutoScrollGallery.jsx`:

```js
useEffect(() => {
  const el = containerRef.current;
  if (!el || !hasLoop) return;
  const reduced = window.matchMedia("(prefers-reduced-motion: reduce)").matches;
  if (reduced) return;
  ...
  const step = (ts) => {
    const dt = Math.min(ts - prev, 50);
    prev = ts;
    if (!isPaused) {
      const pxPerMs = speed / 1000;
      el.scrollLeft += pxPerMs * dt;
      const half = el.scrollWidth / 2;
      if (el.scrollLeft >= half) el.scrollLeft -= half;
    }
    rafId = requestAnimationFrame(step);
  };
  ...
  const onResize = () => {
    const half = el.scrollWidth / 2;
    if (half > 0) el.scrollLeft = el.scrollLeft % half;
  };
  ...
}, [hasLoop, speed, isPaused]);
```

The state carries the current scroll offset (`el.scrollLeft`) together
with the current half track width (`el.scrollWidth / 2`, which only
changes on layout changes, i.e. at resize events).
-/

/-- Observable DOM state of the strip: scroll offset and current half
track width. -/
structure StripState where
  offset : ℚ
  half : ℚ
deriving DecidableEq

/-- One event processed by the auto-scroll effect: an animation frame
(`dtRaw` = `ts - prev`, raw elapsed ms; `paused` = the `isPaused` flag at
that frame) or a `ResizeObserver` callback reporting a new half track
width. -/
inductive StripEvent where
  | tick (dtRaw : ℚ) (paused : Bool)
  | resize (newHalf : ℚ)

/-- One animation-frame step of the ticker (`step` in the source). -/
def stripTick (speed : ℚ) (s : StripState) (dtRaw : ℚ) (paused : Bool) :
    StripState :=
  if paused then s
  else
    let dt := min dtRaw 50
    let o := s.offset + speed / 1000 * dt
    if s.half ≤ o then { s with offset := o - s.half } else { s with offset := o }

/-- The `ResizeObserver` callback (`onResize` in the source): the offset
is reduced modulo the new half width when that half width is positive. -/
def stripResize (s : StripState) (newHalf : ℚ) : StripState :=
  if 0 < newHalf then { offset := jsMod s.offset newHalf, half := newHalf }
  else { s with half := newHalf }

/-- Process one strip event. -/
def stripStep (speed : ℚ) (s : StripState) : StripEvent → StripState
  | .tick dtRaw paused => stripTick speed s dtRaw paused
  | .resize newHalf => stripResize s newHalf

/-- Run the ticker over a list of events. -/
def stripRun (speed : ℚ) (s : StripState) (es : List StripEvent) : StripState :=
  es.foldl (stripStep speed) s

/-- Whether the auto-scroll effect starts at all: it returns early when
the container is absent, when `hasLoop` is false, or when the
reduced-motion media query matches. -/
def stripTickerStarts (hasEl hLoop reduced : Bool) : Bool :=
  hasEl && hLoop && !reduced

/-- The frames seen by the component: when the ticker effect was never
started, no `step` callback ever runs and the state is untouched. -/
def stripRunFrames (started : Bool) (speed : ℚ) (s : StripState)
    (frames : List (ℚ × Bool)) : StripState :=
  if started then frames.foldl (fun st fb => stripTick speed st fb.1 fb.2) s
  else s

/-- The visibility (IntersectionObserver) callback of
`AutoScrollGallery.jsx`: `if (!entry.isIntersecting) setIsPaused(true)` —
it returns the new value of the `isPaused` flag. -/
def visibilityUpdate (paused : Bool) (isIntersecting : Bool) : Bool :=
  if !isIntersecting then true else paused

/-- The hover handlers: `onMouseEnter`/`onMouseLeave` set the pause flag
when `pauseOnHover` is enabled (they are `undefined` otherwise). -/
def stripMouseEnter (pauseOnHover paused : Bool) : Bool :=
  if pauseOnHover then true else paused

/-- See `stripMouseEnter`. -/
def stripMouseLeave (pauseOnHover paused : Bool) : Bool :=
  if pauseOnHover then false else paused

/-- The arrow-button manual scroll (`scrollByOneCard`): the delta handed
to `el.scrollBy` is one card's rendered width plus its horizontal
margins, signed by the direction. -/
def scrollByOneCard (dir cardWidth marginX : ℚ) : ℚ :=
  dir * (cardWidth + marginX)

/-! ## GalleryCarousel (CloneLoopCarousel)

From `GalleryCarousel` in `src/src/App.jsx`:

```js
const [index, setIndex] = useState(1);
const [isAnimating, setAnimating] = useState(true);
const [paused, setPaused] = useState(false);

const slides = useMemo(() => {
  if (!images.length) return [];
  return [images[images.length - 1], ...images, images[0]];
}, [images]);

useEffect(() => {                       // autoplay
  if (paused || !slides.length) return;
  const id = setInterval(() => { setIndex((i) => i + 1); setAnimating(true); }, 3500);
  return () => clearInterval(id);
}, [paused, slides.length]);

const onEnd = () => {                   // transitionend wrap
  if (index === slides.length - 1) { setAnimating(false); setIndex(1); }
  else if (index === 0) { setAnimating(false); setIndex(slides.length - 2); }
};

useEffect(() => {                       // re-enable after a jump
  if (isAnimating) return;
  const id = requestAnimationFrame(() => setAnimating(true));
  return () => cancelAnimationFrame(id);
}, [isAnimating]);

const go = (dir) => { setAnimating(true); setIndex((i) => i + dir); };
// dot i: setIndex(i + 1); setAnimating(true);
const realIndex = images.length ? (index - 1 + images.length) % images.length : 0;
```
-/

/-- The clone-padded slide sequence `[last, ...images, first]` (empty for
an empty image list). -/
def slides (images : List String) : List String :=
  if images.isEmpty then []
  else images.getLastD "" :: images ++ [images.headD ""]

/-- Number of clone-padded slides for `n` images (`slides.length`). -/
def slidesLen (n : ℕ) : ℕ := if n = 0 then 0 else n + 2

/-- Carousel component state: authoritative slide index (an integer — JS
never clamps it), the transition-animation flag and the hover-pause
flag. -/
structure CarouselState where
  index : ℤ
  isAnimating : Bool
  paused : Bool
deriving DecidableEq

/-- Initial state: `useState(1)`, `useState(true)`, `useState(false)`. -/
def initCarousel : CarouselState := { index := 1, isAnimating := true, paused := false }

/-- The events the carousel reacts to. -/
inductive CarEvent where
  | tick
  | go (dir : ℤ)
  | dot (i : ℕ)
  | transitionEnd
  | frame
  | mouseEnter
  | mouseLeave
deriving DecidableEq

/-- Guard of the autoplay effect: the `setInterval` is only installed when
`!(paused || !slides.length)`.  Translated from
`if (paused || !slides.length) return;`. -/
def carouselAutoplayArms (paused : Bool) (slidesLength : ℕ) : Bool :=
  !(paused || slidesLength == 0)

/-- One event step of the carousel for an image list of length `n`. -/
def carStep (n : ℕ) (s : CarouselState) : CarEvent → CarouselState
  | .tick =>
      if carouselAutoplayArms s.paused (slidesLen n) then
        { s with index := s.index + 1, isAnimating := true }
      else s
  | .go dir => { s with index := s.index + dir, isAnimating := true }
  | .dot i => { s with index := (i : ℤ) + 1, isAnimating := true }
  | .transitionEnd =>
      if s.index = (slidesLen n : ℤ) - 1 then
        { s with index := 1, isAnimating := false }
      else if s.index = 0 then
        { s with index := (slidesLen n : ℤ) - 2, isAnimating := false }
      else s
  | .frame => if s.isAnimating then s else { s with isAnimating := true }
  | .mouseEnter => { s with paused := true }
  | .mouseLeave => { s with paused := false }

/-- Run the carousel over a list of events. -/
def carRun (n : ℕ) (s : CarouselState) (es : List CarEvent) : CarouselState :=
  es.foldl (carStep n) s

/-- The displayed dot position:
`images.length ? (index - 1 + images.length) % images.length : 0`
with the JS truncating remainder. -/
def realIndex (n : ℕ) (index : ℤ) : ℤ :=
  if n = 0 then 0 else jsModInt (index - 1 + n) n

/-! ## useParallaxRelative (ParallaxDriver)

From `useParallaxRelative` in `src/src/App.jsx`: the effect caches the
container's absolute top (`getBoundingClientRect().top + scrollY`), and
on each scroll event (unless reduced motion is set or the scroll position
is unchanged) schedules at most one animation frame that writes
`translateY(offset px) scale(1.05)` with
`offset = (y - containerTop) * speed`.  `onResize` re-measures the
container top, resets the `lastY` change detector to `-1` and re-runs
`onScroll`; the mount path calls `onResize()` once before subscribing.
-/

/-- State owned by one `useParallaxRelative` effect instance. -/
structure ParallaxState where
  containerTop : ℚ
  lastY : ℚ
  raf : Option ℚ
  transform : Option String
deriving DecidableEq

/-- State at effect start: `raf = 0`, `lastY = -1`, container top as
first measured, no transform written yet. -/
def initParallax (measuredTop : ℚ) : ParallaxState :=
  { containerTop := measuredTop, lastY := -1, raf := none, transform := none }

/-- The transform string written to the background element:
`translateY(offset px) scale(1.05)`. -/
def parallaxTransform (offset : ℚ) : String :=
  "translateY(" ++ toString offset ++ "px) scale(1.05)"

/-- The `onScroll` handler.  When a frame request is already pending
(`raf ||= ...`), no new callback is scheduled, so the pending frame keeps
the scroll position it captured. -/
def parallaxOnScroll (reduced : Bool) (y : ℚ) (s : ParallaxState) :
    ParallaxState :=
  if reduced then s
  else if y = s.lastY then s
  else
    match s.raf with
    | some captured => { s with lastY := y, raf := some captured }
    | none => { s with lastY := y, raf := some y }

/-- The pending animation-frame callback: computes
`offset = (y - containerTop) * speed` from the captured scroll position
and writes the transform. -/
def parallaxFrame (speed : ℚ) (s : ParallaxState) : ParallaxState :=
  match s.raf with
  | none => s
  | some y =>
      { s with
        transform := some (parallaxTransform ((y - s.containerTop) * speed))
        raf := none }

/-- The `onResize` handler (also run once at mount): re-measure the
container top, reset `lastY` to `-1`, then run `onScroll` at the current
scroll position. -/
def parallaxOnResize (reduced : Bool) (measuredTop y : ℚ)
    (s : ParallaxState) : ParallaxState :=
  parallaxOnScroll reduced y { s with containerTop := measuredTop, lastY := -1 }

/-! ## Section activity tracker

From the section IntersectionObserver effect in `src/src/App.jsx`:

```js
const obs = new IntersectionObserver((entries) => {
  entries.forEach((entry) => {
    if (entry.isIntersecting) setActive(entry.target.id);
  });
}, { rootMargin: "-40% 0px -55% 0px", threshold: [0, 0.2, 0.5, 1] });
```

An observer callback batch is a list of `(section id, isIntersecting)`
entries, iterated in order; every intersecting entry overwrites the
active id. -/

/-- One IntersectionObserver callback batch applied to the active id. -/
def processEntries (entries : List (String × Bool)) (active : String) :
    String :=
  entries.foldl (fun a e => if e.2 then e.1 else a) active

/-- A whole sequence of observer callback batches. -/
def processBatches (batches : List (List (String × Bool))) (active : String) :
    String :=
  batches.foldl (fun a b => processEntries b a) active

/-! ## Teardown / cleanup

Every effect in the subsystem returns a cleanup that revokes exactly the
subscriptions the effect installed, using browser operations that are
no-ops on an already-revoked subscription (`removeEventListener`,
`clearInterval`, `cancelAnimationFrame`, `disconnect`).  The page-wide
set of live subscriptions is modelled as a list of tags; each cleanup
filters out the tags its effect owns. -/

/-- Tags for the subscriptions owned by the subsystem's effects;
`other n` stands for subscriptions owned by anything else on the page. -/
inductive SubId where
  | scrollListener
  | resizeListener
  | parallaxRaf
  | stripRaf
  | stripResizeObs
  | stripIntersectionObs
  | sectionObs
  | carouselInterval
  | carouselTransitionListener
  | carouselRaf
  | other (n : ℕ)
deriving DecidableEq

/-- Cleanup of `useParallaxRelative`: `removeEventListener("scroll")`,
`removeEventListener("resize")`, `if (raf) cancelAnimationFrame(raf)`. -/
def parallaxCleanup (r : List SubId) : List SubId :=
  r.filter fun i =>
    !(i == .scrollListener || i == .resizeListener || i == .parallaxRaf)

/-- Cleanup of the strip's auto-scroll effect:
`cancelAnimationFrame(rafId); ro.disconnect()`. -/
def stripTickerCleanup (r : List SubId) : List SubId :=
  r.filter fun i => !(i == .stripRaf || i == .stripResizeObs)

/-- Cleanup of the strip's visibility effect: `io.disconnect()`. -/
def stripVisibilityCleanup (r : List SubId) : List SubId :=
  r.filter fun i => !(i == .stripIntersectionObs)

/-- Cleanup of the section-activity tracker effect:
`return () => obs.disconnect();` — disconnecting the one
IntersectionObserver that watches every section releases all section
observations. -/
def sectionTrackerCleanup (r : List SubId) : List SubId :=
  r.filter fun i => !(i == .sectionObs)

/-- Cleanup of the carousel's three effects: `clearInterval(id)`,
`el.removeEventListener("transitionend", onEnd)`,
`cancelAnimationFrame(id)`. -/
def carouselCleanup (r : List SubId) : List SubId :=
  r.filter fun i =>
    !(i == .carouselInterval || i == .carouselTransitionListener ||
      i == .carouselRaf)

/-! ## Theorems -/

theorem count_filter_out (l : List SubId) (p : SubId → Bool) (a : SubId)
    (h : p a = false) : (l.filter p).count a = 0 := by
  rw [List.count_eq_zero]
  intro hm
  have hpa := (List.mem_filter.mp hm).2
  rw [h] at hpa
  exact Bool.false_ne_true hpa

/-- Claim C8: whenever an observed section transitions into intersecting
the viewport band, its id becomes the active id, last observed event
wins; concretely, with sections A, B, C a batch reporting B intersecting
makes the active id "B", and a later batch for C updates it to "C". -/
theorem section_tracker_last_observed_wins
    (batches : List (List (String × Bool))) (entries : List (String × Bool))
    (a id : String) :
    processEntries (entries ++ [(id, true)]) a = id ∧
    processBatches (batches ++ [entries ++ [(id, true)]]) a = id ∧
    processEntries [("B", true)] "A" = "B" ∧
    processEntries [("C", true)] (processEntries [("B", true)] "A") = "C" := by
  have hE : ∀ (es : List (String × Bool)) (x : String),
      processEntries (es ++ [(id, true)]) x = id := by
    intro es x
    simp [processEntries, List.foldl_append]
  refine ⟨hE entries a, ?_, rfl, rfl⟩
  simp only [processBatches, List.foldl_append, List.foldl_cons, List.foldl_nil]
  exact hE entries _

/-- Claim C9: every component's cleanup — the parallax driver, the
strip's ticker and visibility effects, the section-activity tracker and
the carousel — is idempotent (running it a second time changes nothing,
since the underlying browser revocations are no-ops on absent
subscriptions) and leaves zero subscriptions owned by its effect in the
page-wide registry. -/
theorem teardown_idempotent_and_complete (r : List SubId) :
    parallaxCleanup (parallaxCleanup r) = parallaxCleanup r ∧
    stripTickerCleanup (stripTickerCleanup r) = stripTickerCleanup r ∧
    stripVisibilityCleanup (stripVisibilityCleanup r) = stripVisibilityCleanup r ∧
    sectionTrackerCleanup (sectionTrackerCleanup r) = sectionTrackerCleanup r ∧
    carouselCleanup (carouselCleanup r) = carouselCleanup r ∧
    (parallaxCleanup r).count .scrollListener = 0 ∧
    (parallaxCleanup r).count .resizeListener = 0 ∧
    (parallaxCleanup r).count .parallaxRaf = 0 ∧
    (stripTickerCleanup r).count .stripRaf = 0 ∧
    (stripTickerCleanup r).count .stripResizeObs = 0 ∧
    (stripVisibilityCleanup r).count .stripIntersectionObs = 0 ∧
    (sectionTrackerCleanup r).count .sectionObs = 0 ∧
    (carouselCleanup r).count .carouselInterval = 0 ∧
    (carouselCleanup r).count .carouselTransitionListener = 0 ∧
    (carouselCleanup r).count .carouselRaf = 0 := by
  refine ⟨?_, ?_, ?_, ?_, ?_, ?_, ?_, ?_, ?_, ?_, ?_, ?_, ?_, ?_, ?_⟩
  · simp [parallaxCleanup, List.filter_filter]
  · simp [stripTickerCleanup, List.filter_filter]
  · simp [stripVisibilityCleanup, List.filter_filter]
  · simp [sectionTrackerCleanup, List.filter_filter]
  · simp [carouselCleanup, List.filter_filter]
  all_goals first
    | exact count_filter_out _ _ _ (by decide)

theorem safeImages_strings (urls : List String) (h : ∀ s ∈ urls, s ≠ "") :
    safeImages (.arr (urls.map .strE)) =
      urls.map (fun s => ({ src := s } : GalleryImage)) := by
  induction urls with
  | nil => rfl
  | cons a t ih =>
    have ha : entryTruthy (.strE a) = true := by
      simp only [entryTruthy, Bool.not_eq_eq_eq_not, Bool.not_true, beq_eq_false_iff_ne]
      exact h a (by simp)
    have ht := ih (fun s hs => h s (by simp [hs]))
    simp only [safeImages, List.map_cons, List.filter_cons, ha, if_true,
      List.map_cons] at ht ⊢
    rw [ht]
    rfl

theorem safeImages_objects (urls : List String) :
    safeImages (.arr (urls.map (fun s => .objE { src := s }))) =
      urls.map (fun s => ({ src := s } : GalleryImage)) := by
  induction urls with
  | nil => rfl
  | cons a t ih =>
    simp only [safeImages, List.map_cons, List.filter_cons, entryTruthy,
      if_true] at ih ⊢
    rw [ih]
    rfl

/-- Claim C10: the `images` prop is normalized first — a non-array
becomes the empty list, falsy entries are removed, strings become
`{ src }` objects — and the loop decision and duplicated track are
computed from the normalized list, so a list of (nonempty) URL strings
and the equivalent list of objects behave identically. -/
theorem images_prop_normalized (urls : List String) (l : List ImageEntry)
    (h : ∀ s ∈ urls, s ≠ "") :
    safeImages .notArray = [] ∧
    safeImages (.arr (.nullish :: l)) = safeImages (.arr l) ∧
    safeImages (.arr (urls.map .strE)) =
      urls.map (fun s => ({ src := s } : GalleryImage)) ∧
    safeImages (.arr (urls.map (fun s => .objE { src := s }))) =
      urls.map (fun s => ({ src := s } : GalleryImage)) ∧
    hasLoop (safeImages (.arr (urls.map .strE))) =
      hasLoop (safeImages (.arr (urls.map (fun s => .objE { src := s })))) ∧
    track (safeImages (.arr (urls.map .strE))) =
      track (safeImages (.arr (urls.map (fun s => .objE { src := s })))) := by
  refine ⟨rfl, ?_, safeImages_strings urls h, safeImages_objects urls, ?_, ?_⟩
  · simp [safeImages, List.filter_cons, entryTruthy]
  · rw [safeImages_strings urls h, safeImages_objects urls]
  · rw [safeImages_strings urls h, safeImages_objects urls]

/-- Witness for C10 at a concrete prop value. -/
theorem images_prop_normalized_witness :
    safeImages (.arr (["u1", "u2"].map .strE)) =
      ["u1", "u2"].map (fun s => ({ src := s } : GalleryImage)) ∧
    track (safeImages (.arr (["u1", "u2"].map .strE))) =
      track (safeImages (.arr (["u1", "u2"].map (fun s => .objE { src := s })))) := by
  have h := images_prop_normalized ["u1", "u2"] [] (by intro s hs; fin_cases hs <;> decide)
  exact ⟨h.2.2.1, h.2.2.2.2.2⟩

/-- Claim C5 counterexample: after the strip is paused by going
off-screen, an IntersectionObserver callback reporting the strip
intersecting again leaves the paused flag `true` — the callback only
ever sets the flag (`if (!entry.isIntersecting) setIsPaused(true)`), so
resuming is not automatic when visibility returns. -/
theorem strip_visibility_no_auto_resume :
    visibilityUpdate true true = true ∧ visibilityUpdate true true ≠ false := by
  exact ⟨rfl, by decide⟩

/-- Claim C5 (amended): losing visibility sets the paused flag; while
paused, a frame tick leaves the scroll offset untouched (no state is
lost); a callback with the strip intersecting leaves the paused flag
unchanged — the flag is only cleared by the mouse-leave handler. -/
theorem strip_visibility_pause_keeps_state (p : Bool) (speed dtRaw : ℚ)
    (s : StripState) :
    visibilityUpdate p false = true ∧
    visibilityUpdate p true = p ∧
    stripTick speed s dtRaw true = s ∧
    stripMouseLeave true p = false := by
  exact ⟨rfl, rfl, rfl, rfl⟩

/-- Claim C6 counterexample: for the singleton image list, the clone-loop
carousel builds a three-slide clone-padded track (not a static
single-pass list), its autoplay interval is armed, and a timer tick moves
the index from 1 to 2. -/
theorem singleton_carousel_not_static :
    slides ["a"] = ["a", "a", "a"] ∧
    carouselAutoplayArms false (slidesLen 1) = true ∧
    (carStep 1 initCarousel .tick).index = 2 := by
  exact ⟨rfl, rfl, rfl⟩

/-- Claim C6 (amended): in the InfiniteStrip, fewer than 2 images
disables looping (no duplicated track) and the autoplay ticker never
starts, rendering a static list without error.  In the CloneLoopCarousel
only the empty list is static (no slides, ticks are no-ops); a singleton
list is clone-padded to three slides and its autoplay still runs. -/
theorem few_images_static_strip (imgs : List GalleryImage)
    (h : imgs.length < 2) (hasEl reduced : Bool) (x : String)
    (s : CarouselState) :
    hasLoop imgs = false ∧
    track imgs = imgs ∧
    stripTickerStarts hasEl (hasLoop imgs) reduced = false ∧
    slides [] = [] ∧
    carStep 0 s .tick = s ∧
    slides [x] = [x, x, x] ∧
    carouselAutoplayArms s.paused (slidesLen 1) = !s.paused := by
  have h0 : hasLoop imgs = false := by
    simp only [hasLoop, decide_eq_false_iff_not]
    omega
  refine ⟨h0, ?_, ?_, rfl, ?_, ?_, ?_⟩
  · rw [track, h0]
    rfl
  · rw [h0]
    simp [stripTickerStarts]
  · simp [carStep, carouselAutoplayArms, slidesLen]
  · simp [slides]
  · simp [carouselAutoplayArms, slidesLen]

/-- Witness for C6 (amended) at a concrete singleton image list. -/
theorem few_images_static_strip_witness :
    hasLoop [({ src := "u" } : GalleryImage)] = false ∧
    track [({ src := "u" } : GalleryImage)] = [{ src := "u" }] ∧
    slides ["u"] = ["u", "u", "u"] := by
  have h := few_images_static_strip [{ src := "u" }] (by norm_num) true false "u"
    initCarousel
  exact ⟨h.1, h.2.1, h.2.2.2.2.2.1⟩

/-- Claim C3: completing a transition with the index at the trailing
clone slot N+1 disables animation and snaps the index to 1; at the
leading clone slot 0 it disables animation and snaps to N; and whenever
animation is disabled, the next rendered frame re-enables it. -/
theorem carousel_clone_snap (n : ℕ) (hn : 1 ≤ n) (s : CarouselState) :
    (s.index = (n : ℤ) + 1 →
      carStep n s .transitionEnd = { s with index := 1, isAnimating := false }) ∧
    (s.index = 0 →
      carStep n s .transitionEnd =
        { s with index := (n : ℤ), isAnimating := false }) ∧
    (s.isAnimating = false → (carStep n s .frame).isAnimating = true) := by
  have hsl : slidesLen n = n + 2 := by
    rw [slidesLen, if_neg (by omega)]
  refine ⟨?_, ?_, ?_⟩
  · intro h
    simp only [carStep, hsl]
    rw [if_pos (by push_cast; omega)]
  · intro h
    simp only [carStep, hsl]
    rw [if_neg (by push_cast; omega), if_pos h]
    have hc : ((n : ℤ) + 2) - 2 = (n : ℤ) := by ring
    push_cast
    rw [hc]
  · intro h
    simp [carStep, h]

/-- Witness for C3 with two images: the trailing-clone snap at index 3,
the leading-clone snap at index 0, and the frame re-enable. -/
theorem carousel_clone_snap_witness :
    carStep 2 { index := 3, isAnimating := true, paused := false }
        .transitionEnd
      = { index := 1, isAnimating := false, paused := false } ∧
    carStep 2 { index := 0, isAnimating := true, paused := false }
        .transitionEnd
      = { index := 2, isAnimating := false, paused := false } ∧
    (carStep 2 { index := 1, isAnimating := false, paused := false }
        .frame).isAnimating = true := by
  refine ⟨?_, ?_, ?_⟩
  · exact (carousel_clone_snap 2 (by norm_num)
      { index := 3, isAnimating := true, paused := false }).1 rfl
  · exact (carousel_clone_snap 2 (by norm_num)
      { index := 0, isAnimating := true, paused := false }).2.1 rfl
  · exact (carousel_clone_snap 2 (by norm_num)
      { index := 1, isAnimating := false, paused := false }).2.2 rfl

/-- Claim C4 counterexample: the clone-loop carousel's autoplay guard —
translated from `if (paused || !slides.length) return;`, the only gate on
the `setInterval` — takes no reduced-motion input at all (`GalleryCarousel`
never queries the media preference), so with the preference set the
interval is still armed and a tick still advances the index. -/
theorem carousel_autoplay_ignores_reduced_motion :
    carouselAutoplayArms false (slidesLen 6) = true ∧
    (carStep 6 initCarousel .tick).index = 2 ∧
    carStep 6 initCarousel .tick ≠ initCarousel := by
  refine ⟨rfl, rfl, by decide⟩

/-- Claim C4 (amended): with the reduced-motion preference set, the
InfiniteStrip's autoplay effect never starts, so its scroll offset never
changes across any number of frames; manual navigation stays functional
in both carousels (arrow scroll delta for the strip, `go` for the
carousel); the CloneLoopCarousel's autoplay, however, is not gated on the
preference and still advances on each interval tick. -/
theorem reduced_motion_behavior (hasEl hLoop : Bool) (speed : ℚ)
    (s : StripState) (frames : List (ℚ × Bool)) (dir w m : ℚ) (n : ℕ)
    (hn : 1 ≤ n) (cs : CarouselState) (hp : cs.paused = false) (d : ℤ) :
    stripTickerStarts hasEl hLoop true = false ∧
    stripRunFrames (stripTickerStarts hasEl hLoop true) speed s frames = s ∧
    scrollByOneCard dir w m = dir * (w + m) ∧
    (carStep n cs (.go d)).index = cs.index + d ∧
    (carStep n cs .tick).index = cs.index + 1 := by
  have h0 : stripTickerStarts hasEl hLoop true = false := by
    simp [stripTickerStarts]
  have hsl : slidesLen n = n + 2 := by
    rw [slidesLen, if_neg (by omega)]
  refine ⟨h0, ?_, rfl, rfl, ?_⟩
  · rw [h0]
    rfl
  · simp [carStep, carouselAutoplayArms, hp, hsl]

/-- Witness for C4 (amended) at concrete parameters. -/
theorem reduced_motion_behavior_witness :
    stripTickerStarts true true true = false ∧
    stripRunFrames (stripTickerStarts true true true) 60
        { offset := 7, half := 400 } [(16, false), (16, false)]
      = { offset := 7, half := 400 } ∧
    scrollByOneCard 1 180 12 = 1 * (180 + 12) ∧
    (carStep 6 initCarousel (.go (-1))).index = initCarousel.index + (-1) ∧
    (carStep 6 initCarousel .tick).index = initCarousel.index + 1 :=
  reduced_motion_behavior true true 60 { offset := 7, half := 400 }
    [(16, false), (16, false)] 1 180 12 6 (by norm_num) initCarousel rfl (-1)

/-- Claim C7: the parallax driver writes
`translateY(offset px) scale(1.05)` with
`offset = (scrollY - containerTop) * speedFactor` on the frame following
a scroll event; the container top is re-measured by every resize and by
the mount-time `onResize()`; concretely, speedFactor 1/4, container top
100 and scrollY 500 produce `translateY(100px) scale(1.05)`. -/
theorem parallax_transform_formula (speed top y : ℚ) (s : ParallaxState)
    (hraf : s.raf = none) (hy : y ≠ s.lastY) :
    (parallaxFrame speed
        (parallaxOnScroll false y { s with containerTop := top })).transform
      = some (parallaxTransform ((y - top) * speed)) ∧
    (parallaxOnResize false top y s).containerTop = top ∧
    (parallaxFrame (1 / 4)
        (parallaxOnResize false 100 500 (initParallax 0))).transform
      = some "translateY(100px) scale(1.05)" := by
  refine ⟨?_, ?_, ?_⟩
  · simp [parallaxOnScroll, parallaxFrame, hraf, hy]
  · rw [parallaxOnResize]
    unfold parallaxOnScroll
    split
    · rfl
    · split
      · rfl
      · cases hr : ({ s with containerTop := top, lastY := -1 } :
          ParallaxState).raf <;> simp [hr]
  · have hoff : ((500 : ℚ) - 100) * (1 / 4) = 100 := by norm_num
    have h1 : parallaxOnResize false 100 500 (initParallax 0)
        = { containerTop := 100, lastY := 500, raf := some 500,
            transform := none } := by
      rw [parallaxOnResize, initParallax]
      unfold parallaxOnScroll
      rw [if_neg (by norm_num), if_neg (by norm_num)]
    rw [h1]
    show some (parallaxTransform ((500 - (100 : ℚ)) * (1 / 4))) = _
    rw [hoff]
    rfl

/-- Witness for C7 at concrete parameters. -/
theorem parallax_transform_formula_witness :
    (parallaxFrame 2
        (parallaxOnScroll false 200
          { initParallax 0 with containerTop := 50 })).transform
      = some (parallaxTransform ((200 - 50) * 2)) ∧
    (parallaxOnResize false 50 200 (initParallax 0)).containerTop = 50 ∧
    (parallaxFrame (1 / 4)
        (parallaxOnResize false 100 500 (initParallax 0))).transform
      = some "translateY(100px) scale(1.05)" :=
  parallax_transform_formula 2 50 200 (initParallax 0) rfl
    (by norm_num [initParallax])

/-! ### InfiniteStrip offset invariant (claim C2) -/

/-- Well-formedness of one strip event: frame timestamps never run
backwards (`performance.now()` is monotone), so the raw elapsed time is
nonnegative; a resize reports a positive half width no smaller than the
largest possible per-tick advance `speed * 50 / 1000` (true of every
instantiation in the repository: speeds of 60–70 px/s versus half-track
widths of several hundred px). -/
def StripEventOK (speed : ℚ) : StripEvent → Prop
  | .tick dtRaw _ => 0 ≤ dtRaw
  | .resize newHalf => 0 < newHalf ∧ speed * 50 / 1000 ≤ newHalf

/-- The strip invariant: the offset lies in `[0, half)` and the half
width dominates the largest per-tick advance. -/
def StripInv (speed : ℚ) (s : StripState) : Prop :=
  0 ≤ s.offset ∧ s.offset < s.half ∧ speed * 50 / 1000 ≤ s.half

theorem stripTick_inv (speed : ℚ) (hsp : 0 ≤ speed) (s : StripState)
    (h : StripInv speed s) (dtRaw : ℚ) (hdt : 0 ≤ dtRaw) (paused : Bool) :
    StripInv speed (stripTick speed s dtRaw paused) := by
  obtain ⟨h0, h1, h2⟩ := h
  cases paused
  · have hdt0 : 0 ≤ min dtRaw 50 := le_min hdt (by norm_num)
    have hdt50 : min dtRaw 50 ≤ 50 := min_le_right _ _
    have hq : (0 : ℚ) ≤ speed / 1000 := by positivity
    have hdelta0 : 0 ≤ speed / 1000 * min dtRaw 50 := mul_nonneg hq hdt0
    have hdelta : speed / 1000 * min dtRaw 50 ≤ speed * 50 / 1000 := by
      calc speed / 1000 * min dtRaw 50
          ≤ speed / 1000 * 50 := mul_le_mul_of_nonneg_left hdt50 hq
        _ = speed * 50 / 1000 := by ring
    rw [stripTick]
    simp only [Bool.false_eq_true, if_false]
    split
    · rename_i hge
      exact ⟨by linarith, by linarith, h2⟩
    · rename_i hlt
      push_neg at hlt
      exact ⟨by linarith, by linarith, h2⟩
  · exact ⟨h0, h1, h2⟩

theorem stripResize_inv (speed : ℚ) (s : StripState)
    (h : StripInv speed s) (newHalf : ℚ) (hh : 0 < newHalf)
    (hsh : speed * 50 / 1000 ≤ newHalf) :
    StripInv speed (stripResize s newHalf) := by
  obtain ⟨h0, _, _⟩ := h
  rw [stripResize, if_pos hh]
  exact ⟨jsMod_nonneg _ _ h0 hh, jsMod_lt _ _ h0 hh, hsh⟩

theorem stripRun_inv (speed : ℚ) (hsp : 0 ≤ speed) (es : List StripEvent) :
    ∀ s : StripState, StripInv speed s → (∀ e ∈ es, StripEventOK speed e) →
      StripInv speed (stripRun speed s es) := by
  induction es with
  | nil => intro s h _; exact h
  | cons e t ih =>
    intro s h he
    have he1 : StripEventOK speed e := he e (by simp)
    have het : ∀ x ∈ t, StripEventOK speed x := fun x hx => he x (by simp [hx])
    simp only [stripRun, List.foldl_cons]
    cases e with
    | tick dtRaw paused =>
      exact ih _ (stripTick_inv speed hsp s h dtRaw he1 paused) het
    | resize newHalf =>
      exact ih _ (stripResize_inv speed s h newHalf he1.1 he1.2) het

/-- Claim C2: a frame tick advances the offset by
`speed * min(elapsedMs, 50) / 1000` and then subtracts exactly the half
track width once the offset reaches or passes it; a resize renormalizes
any nonnegative offset into `[0, newHalf)` by the JS modulo; consequently,
starting from offset 0, after any sequence of well-formed ticks and
resizes the offset stays within `[0, half)` of the current half track
width. -/
theorem strip_offset_stays_bounded (speed H0 : ℚ) (es : List StripEvent)
    (hsp : 0 ≤ speed) (hH : 0 < H0) (hsH : speed * 50 / 1000 ≤ H0)
    (hes : ∀ e ∈ es, StripEventOK speed e) :
    (∀ (s : StripState) (dtRaw : ℚ),
      stripTick speed s dtRaw false =
        if s.half ≤ s.offset + speed * min dtRaw 50 / 1000 then
          { s with offset := s.offset + speed * min dtRaw 50 / 1000 - s.half }
        else
          { s with offset := s.offset + speed * min dtRaw 50 / 1000 }) ∧
    (∀ (s : StripState) (newHalf : ℚ), 0 ≤ s.offset → 0 < newHalf →
      0 ≤ (stripResize s newHalf).offset ∧
        (stripResize s newHalf).offset < newHalf) ∧
    0 ≤ (stripRun speed { offset := 0, half := H0 } es).offset ∧
    (stripRun speed { offset := 0, half := H0 } es).offset
      < (stripRun speed { offset := 0, half := H0 } es).half := by
  have hinv := stripRun_inv speed hsp es { offset := 0, half := H0 }
    ⟨le_refl 0, hH, hsH⟩ hes
  refine ⟨?_, ?_, hinv.1, hinv.2.1⟩
  · intro s dtRaw
    have hc : speed / 1000 * min dtRaw 50 = speed * min dtRaw 50 / 1000 := by
      ring
    rw [stripTick]
    simp only [Bool.false_eq_true, if_false]
    rw [hc]
  · intro s newHalf h0 hh
    rw [stripResize, if_pos hh]
    exact ⟨jsMod_nonneg _ _ h0 hh, jsMod_lt _ _ h0 hh⟩

/-- Witness for C2: speed 70 px/s, initial half width 1000, a frame, a
shrinking resize, a long paused-tab frame and a hover-paused frame. -/
theorem strip_offset_stays_bounded_witness :
    0 ≤ (stripRun 70 { offset := 0, half := 1000 }
        [.tick 16 false, .resize 500, .tick 2000 false,
         .tick 30 true]).offset ∧
    (stripRun 70 { offset := 0, half := 1000 }
        [.tick 16 false, .resize 500, .tick 2000 false,
         .tick 30 true]).offset
      < (stripRun 70 { offset := 0, half := 1000 }
        [.tick 16 false, .resize 500, .tick 2000 false,
         .tick 30 true]).half := by
  have h := strip_offset_stays_bounded 70 1000
    [.tick 16 false, .resize 500, .tick 2000 false, .tick 30 true]
    (by norm_num) (by norm_num) (by norm_num)
    (by intro e he; fin_cases he <;> norm_num [StripEventOK])
  exact ⟨h.2.2.1, h.2.2.2⟩

/-! ### CloneLoopCarousel index bounds (claim C1) -/

/-- Claim C1 counterexample: with one image (N = 1, clone-padded length
3), two consecutive next commands — issued before any `transitionend`
fires, as happens on a rapid double click — drive the index to 3, outside
`[0, N + 1] = [0, 2]`; nothing in `go` or the autoplay tick clamps it. -/
theorem carousel_index_escapes_bounds :
    (carRun 1 initCarousel [.go 1, .go 1]).index = 3 ∧
    ¬(carRun 1 initCarousel [.go 1, .go 1]).index ≤ (1 : ℤ) + 1 := by
  exact ⟨rfl, by decide⟩

/-- The commands of claim C1: autoplay ticks, directional ±1 moves, dot
selections on existing dots, re-enable frames and hover toggles. -/
def CarCmd (n : ℕ) (e : CarEvent) : Prop :=
  e = .tick ∨ e = .go 1 ∨ e = .go (-1) ∨ (∃ i, i < n ∧ e = .dot i) ∨
  e = .frame ∨ e = .mouseEnter ∨ e = .mouseLeave

/-- One command followed by the processing of its `transitionend`
handler (the settling discipline under which the claim holds). -/
def settledStep (n : ℕ) (s : CarouselState) (e : CarEvent) : CarouselState :=
  carStep n (carStep n s e) .transitionEnd

/-- A run of settled steps. -/
def settledRun (n : ℕ) (s : CarouselState) (es : List CarEvent) :
    CarouselState :=
  es.foldl (settledStep n) s

theorem carStep_cmd_bounds (n : ℕ) (s : CarouselState)
    (h1 : 1 ≤ s.index) (h2 : s.index ≤ (n : ℤ)) (e : CarEvent)
    (he : CarCmd n e) :
    0 ≤ (carStep n s e).index ∧ (carStep n s e).index ≤ (n : ℤ) + 1 := by
  rcases he with rfl | rfl | rfl | ⟨i, hi, rfl⟩ | rfl | rfl | rfl <;>
    simp only [carStep] <;> (try split) <;> constructor <;>
    first
      | omega
      | (simp; try omega)

theorem carStep_transEnd_bounds (n : ℕ) (hn : 1 ≤ n) (s : CarouselState)
    (h0 : 0 ≤ s.index) (h2 : s.index ≤ (n : ℤ) + 1) :
    1 ≤ (carStep n s .transitionEnd).index ∧
      (carStep n s .transitionEnd).index ≤ (n : ℤ) := by
  have hsl : slidesLen n = n + 2 := by rw [slidesLen, if_neg (by omega)]
  simp only [carStep, hsl]
  push_cast
  split_ifs <;> constructor <;>
    first
      | omega
      | (simp; try omega)

theorem settledRun_inv (n : ℕ) (hn : 1 ≤ n) (es : List CarEvent) :
    ∀ s : CarouselState, 1 ≤ s.index → s.index ≤ (n : ℤ) →
      (∀ e ∈ es, CarCmd n e) →
      1 ≤ (settledRun n s es).index ∧ (settledRun n s es).index ≤ (n : ℤ) := by
  induction es with
  | nil => intro s ha hb _; exact ⟨ha, hb⟩
  | cons e t ih =>
    intro s ha hb he
    have he1 : CarCmd n e := he e (by simp)
    have het : ∀ x ∈ t, CarCmd n x := fun x hx => he x (by simp [hx])
    have hmid := carStep_cmd_bounds n s ha hb e he1
    have hset := carStep_transEnd_bounds n hn (carStep n s e) hmid.1 hmid.2
    simp only [settledRun, List.foldl_cons]
    exact ih (settledStep n s e) hset.1 hset.2 het

theorem realIndex_bounds (n : ℕ) (hn : 1 ≤ n) (idx : ℤ) (h1 : 1 ≤ idx)
    (_h2 : idx ≤ (n : ℤ)) :
    0 ≤ realIndex n idx ∧ realIndex n idx ≤ (n : ℤ) - 1 := by
  rw [realIndex, if_neg (by omega), jsModInt]
  have ha : 0 ≤ idx - 1 + (n : ℤ) := by omega
  have hb : (0 : ℤ) ≤ (n : ℤ) := by omega
  rw [Int.tmod_eq_emod ha hb]
  have hmod := Int.emod_lt_of_pos (idx - 1 + (n : ℤ)) (show (0:ℤ) < n by omega)
  have hnn := Int.emod_nonneg (idx - 1 + (n : ℤ)) (show (n:ℤ) ≠ 0 by omega)
  omega

/-- Claim C1 (amended): provided every autoplay tick or navigation
command is followed by the processing of its `transitionend` event before
the next command arrives, the index always stays within `[0, N + 1]`
(settling back into the real-slide range `[1, N]` after each transition
end) and the displayed real index stays within `[0, N - 1]`; without that
discipline, back-to-back commands can leave the clone-padded bounds. -/
theorem carousel_settled_index_bounds (n : ℕ) (hn : 1 ≤ n)
    (es : List CarEvent) (hes : ∀ e ∈ es, CarCmd n e) :
    (1 ≤ (settledRun n initCarousel es).index ∧
      (settledRun n initCarousel es).index ≤ (n : ℤ)) ∧
    (∀ e, CarCmd n e →
      0 ≤ (carStep n (settledRun n initCarousel es) e).index ∧
        (carStep n (settledRun n initCarousel es) e).index ≤ (n : ℤ) + 1) ∧
    0 ≤ realIndex n (settledRun n initCarousel es).index ∧
    realIndex n (settledRun n initCarousel es).index ≤ (n : ℤ) - 1 := by
  have hrun := settledRun_inv n hn es initCarousel (by decide)
    (by simp [initCarousel]; omega) hes
  refine ⟨hrun, ?_, ?_⟩
  · intro e he
    exact carStep_cmd_bounds n _ hrun.1 hrun.2 e he
  · exact realIndex_bounds n hn _ hrun.1 hrun.2

/-- Witness for C1 (amended): six images, a tick, a next, a previous,
a hover pause and another tick, all settled. -/
theorem carousel_settled_index_bounds_witness :
    (1 ≤ (settledRun 6 initCarousel
        [.tick, .go 1, .go (-1), .mouseEnter, .tick]).index ∧
      (settledRun 6 initCarousel
        [.tick, .go 1, .go (-1), .mouseEnter, .tick]).index ≤ (6 : ℤ)) ∧
    0 ≤ realIndex 6 (settledRun 6 initCarousel
        [.tick, .go 1, .go (-1), .mouseEnter, .tick]).index ∧
    realIndex 6 (settledRun 6 initCarousel
        [.tick, .go 1, .go (-1), .mouseEnter, .tick]).index ≤ (6 : ℤ) - 1 := by
  have h := carousel_settled_index_bounds 6 (by norm_num)
    [.tick, .go 1, .go (-1), .mouseEnter, .tick]
    (by intro e he; fin_cases he <;> simp [CarCmd])
  exact ⟨h.1, h.2.2⟩

end Arbor
